import Mathlib

/-!
Verification of the BLEHome mesh-gateway controller
(custom_components/blehome/ble_controller.py) against its specification.

The Python controller is shallowly embedded: frames are lists of byte
values (Nat, each 0..255), the mutable controller object becomes an
explicit ControllerState record threaded through pure step functions,
asyncio tasks become counters/flags on the state, and the event bus
becomes an explicit list of emitted events returned by each step.
Python dicts keyed by address / MAC string become association lists so
that the absence of duplicate entries is an actual provable property.
-/

/-- Frame header byte, const.py HEADER = 0xA5. -/
def HEADER : Nat := 0xA5

/-- Control command word, const.py CONTROL_CMD = 0x8202. -/
def CONTROL_CMD : Nat := 0x8202

/-- Query command word, const.py QUERY_CMD = 0x8201. -/
def QUERY_CMD : Nat := 0x8201

/-- BTHome proxy command word, const.py BTHOME_PROXY_CMD = 0x8203. -/
def BTHOME_PROXY_CMD : Nat := 0x8203

/-- Last-known state of a mesh subdevice: the dict (on, brightness)
stored under the "state" key of a subdevice entry. -/
structure SubState where
  isOn : Bool
  brightness : Nat
deriving DecidableEq

/-- A registry entry for one mesh subdevice: its display name (assigned
at discovery, stable thereafter) and its last-known state. -/
structure Subdevice where
  name : String
  state : SubState
deriving DecidableEq

/-- Events fired on the host event bus by the controller. -/
inductive BusEvent where
  | subdeviceUpdated (address : Nat) (state : SubState)
  | newSubdeviceFound (controllerMac : String) (address : Nat) (name : String) (state : SubState)
  | availabilityChanged (connected : Bool)
deriving DecidableEq

/-- A proxied advertisement forwarded to the scanner-injection path:
originator MAC bytes, signed RSSI, and the raw advertisement payload. -/
structure ForwardedAdv where
  mac : List Nat
  rssi : Int
  payload : List Nat
deriving DecidableEq

/-- Association-list lookup: first entry whose key matches, as a Python
dict lookup (dict keys are unique; the list form makes that provable). -/
def alookup {α β : Type} [DecidableEq α] : List (α × β) → α → Option β
  | [], _ => none
  | (a, b) :: t, k => if a = k then some b else alookup t k

/-- Association-list overwrite of every entry holding key k (a dict has
at most one, so this is dict item assignment on an existing key). -/
def aupdate {α β : Type} [DecidableEq α] (l : List (α × β)) (k : α) (v : β) : List (α × β) :=
  l.map (fun p => if p.1 = k then (k, v) else p)

/-- Python dict item assignment d[k] = v: overwrite when the key is
present, append a fresh entry otherwise. -/
def aset {α β : Type} [DecidableEq α] (l : List (α × β)) (k : α) (v : β) : List (α × β) :=
  if (alookup l k).isSome then aupdate l k v else l ++ [(k, v)]

/-- Lowercase hexadecimal digit character for n in 0..15. -/
def hexDigitChar (n : Nat) : Char :=
  if n < 10 then Char.ofNat (48 + n) else Char.ofNat (87 + n)

/-- Python format spec 04x for a 16-bit value: four lowercase hex
digits, zero padded. Mesh addresses are decoded from two bytes so are
always below 0x10000, where this agrees with the format. -/
def hex4 (n : Nat) : String :=
  String.mk [hexDigitChar (n / 4096 % 16), hexDigitChar (n / 256 % 16),
             hexDigitChar (n / 16 % 16), hexDigitChar (n % 16)]

/-- The whole mutable state of a BLEHomeController that the verified
claims touch. Live asyncio tasks of each kind are modelled by a flag
(heartbeat) and a count (reconnect) so that spawning a second task is
observable. -/
structure ControllerState where
  connected : Bool
  subdevices : List (Nat × Subdevice)
  deviceType : String
  macSuffix : String
  macAddress : String
  bthomeDedup : List (List Nat × List Nat)
  heartbeatRunning : Bool
  reconnectCount : Nat
deriving DecidableEq

/-- Subdevice display name, ble_controller.py line 536:
f-string of device_type, mac_suffix, "light", address formatted 04x. -/
def subdeviceName (deviceType macSuffix : String) (address : Nat) : String :=
  deviceType ++ "." ++ macSuffix ++ ".light." ++ hex4 address

/-- Python hash of the advertisement payload bytes. The runtime hash is
modelled as the payload content itself (an injective content hash); the
spec treats hash collisions as out of scope. -/
def payloadHash (p : List Nat) : List Nat := p

/-- Item assignment subdevices[address]["state"] = s: replace the state
of the entry keyed by the address, keeping its name. -/
def setSubState (subs : List (Nat × Subdevice)) (a : Nat) (s : SubState) :
    List (Nat × Subdevice) :=
  subs.map (fun p => if p.1 = a then (p.1, ⟨p.2.name, s⟩) else p)

/-- BLEHomeController._async_add_discovered_subdevice: guard against a
second registration of the same address, then store the entry and fire
the new-subdevice-found event. (The config-entry persistence side
effect is outside the modelled state.) -/
def addDiscoveredSubdevice (st : ControllerState) (address : Nat) (isOn : Bool)
    (brightness : Nat) : ControllerState × List BusEvent × Option ForwardedAdv :=
  if (alookup st.subdevices address).isSome then (st, [], none)
  else
    let name := subdeviceName st.deviceType st.macSuffix address
    let sub : Subdevice := ⟨name, ⟨isOn, brightness⟩⟩
    ({ st with subdevices := st.subdevices ++ [(address, sub)] },
     [BusEvent.newSubdeviceFound st.macAddress address name sub.state], none)

/-- Signed RSSI of a proxy frame, lines 460-462: byte 5 read as a
two's-complement 8-bit value. -/
def proxyRssi (data : List Nat) : Int :=
  if data.getD 5 0 > 127 then (data.getD 5 0 : Int) - 256 else (data.getD 5 0 : Int)

/-- Originator identity of a proxy frame, line 464: bytes 6..11. -/
def proxyMac (data : List Nat) : List Nat := (data.drop 6).take 6

/-- Advertisement payload of a proxy frame, lines 466-467: the
byte-12-long slice starting at byte 13 (Python slicing truncates at the
end of the frame). -/
def proxyPayload (data : List Nat) : List Nat := (data.drop 13).take (data.getD 12 0)

/-- BLEHomeController._handle_bthome_proxy_packet: drop frames shorter
than 13 bytes; decode signed RSSI byte, 6-byte originator MAC,
length-prefixed advertisement payload; drop when the dedup map holds
the same payload hash for this MAC, otherwise record the hash and
forward the advertisement. -/
def handleBthomeProxyPacket (st : ControllerState) (data : List Nat) :
    ControllerState × Option ForwardedAdv :=
  if data.length < 13 then (st, none)
  else
    let h := payloadHash (proxyPayload data)
    if alookup st.bthomeDedup (proxyMac data) = some h then (st, none)
    else
      ({ st with bthomeDedup := aset st.bthomeDedup (proxyMac data) h },
       some ⟨proxyMac data, proxyRssi data, proxyPayload data⟩)

/-- Mesh address decoded from an inbound frame, line 428:
data byte 1 plus data byte 2 shifted left 8 (little endian). -/
def frameAddress (data : List Nat) : Nat := data.getD 1 0 + data.getD 2 0 * 256

/-- Command word decoded from an inbound frame, line 429:
data byte 3 shifted left 8 plus data byte 4 (big endian). -/
def frameCmd (data : List Nat) : Nat := data.getD 3 0 * 256 + data.getD 4 0

/-- On/brightness decoded from an ordinary inbound frame, lines
435-436: byte 5 nonzero, byte 6. -/
def frameSubState (data : List Nat) : SubState := ⟨data.getD 5 0 != 0, data.getD 6 0⟩

/-- BLEHomeController._notification_handler: drop frames shorter than 7
bytes or with a wrong header byte; decode little-endian address from
bytes 1-2 and big-endian command from bytes 3-4; route proxy frames to
the bridge; otherwise decode on/brightness from bytes 5-6 and either
register a new subdevice (the scheduled discovery task is inlined, as
it runs before the next frame on the single event loop) or update the
existing entry and fire subdevice-updated. -/
def notificationHandler (st : ControllerState) (data : List Nat) :
    ControllerState × List BusEvent × Option ForwardedAdv :=
  if data.length < 7 ∨ data.getD 0 0 ≠ HEADER then (st, [], none)
  else
    let address := frameAddress data
    if frameCmd data = BTHOME_PROXY_CMD then
      let r := handleBthomeProxyPacket st data
      (r.1, [], r.2)
    else
      let ns := frameSubState data
      match alookup st.subdevices address with
      | none => addDiscoveredSubdevice st address ns.isOn ns.brightness
      | some _ =>
        ({ st with subdevices := setSubState st.subdevices address ns },
         [BusEvent.subdeviceUpdated address ns], none)

/-- A fresh connected Session with no known subdevices, default device
type "blehome.tled" and empty mac suffix, as set in
BLEHomeController.__init__. -/
def freshState : ControllerState :=
  { connected := true
    subdevices := []
    deviceType := "blehome.tled"
    macSuffix := ""
    macAddress := "AA:BB:CC:DD:EE:FF"
    bthomeDedup := []
    heartbeatRunning := true
    reconnectCount := 0 }

/-- C1: on a fresh Session, the notification frame
A5 01 00 01 82 01 80 creates subdevice 0x0001 with state
on=true, brightness=128, name "blehome.tled..light.0001" (empty
mac-suffix case), and fires a new-subdevice-found event carrying that
address, name and state. -/
theorem c1_fresh_session_discovers_subdevice :
    notificationHandler freshState [0xA5, 0x01, 0x00, 0x01, 0x82, 0x01, 0x80] =
      ({ freshState with
          subdevices := [(1, ⟨"blehome.tled..light.0001", ⟨true, 128⟩⟩)] },
       [BusEvent.newSubdeviceFound "AA:BB:CC:DD:EE:FF" 1 "blehome.tled..light.0001" ⟨true, 128⟩],
       none) := by
  decide

/-- Wait time after a failed connect attempt inside
BLEHomeController.connect, line 342: min of 5 times (attempt plus 1)
and 30, where attempt is the 0-based loop index of the failed attempt. -/
def connectWaitTime (attempt : Nat) : Nat := min (5 * (attempt + 1)) 30

/-- The sequence of waits produced by one connect(retries) call in
which every attempt fails: the loop waits connectWaitTime attempt after
each failed attempt except the last (line 341 guard attempt less than
retries minus 1). -/
def connectFailWaits (retries : Nat) : List Nat :=
  (List.range retries).filterMap (fun attempt =>
    if attempt < retries - 1 then some (connectWaitTime attempt) else none)

/-- C4 counterexample: the wait after the fourth failed connect attempt
(0-based index 3) is 20 seconds, not the 30 seconds the claim states. -/
theorem c4_fourth_wait_is_not_30 :
    connectWaitTime 3 = 20 ∧ ¬ connectWaitTime 3 = 30 := by
  decide

/-- C4 (amended): within a single connect call's retry loop the waits
after failed attempts 1..4 equal 5, 10, 15, 20 seconds (linear backoff
min of 5n and 30); the 30-second cap is first reached after attempt 6,
and no wait ever exceeds 30 seconds. -/
theorem c4_connect_backoff_amended :
    connectFailWaits 5 = [5, 10, 15, 20] ∧
    connectFailWaits 8 = [5, 10, 15, 20, 25, 30, 30] ∧
    ∀ n, connectWaitTime n ≤ 30 := by
  refine ⟨by decide, by decide, fun n => ?_⟩
  exact min_le_right _ _

/-- One attempt record of the persistent-reconnect loop: its 1-based
attempt number, the per-attempt connect timeout, the retries argument
passed to connect, and the wait slept after the failed attempt. -/
structure ReconnectAttempt where
  attempt : Nat
  timeout : Nat
  retries : Nat
  wait : Nat
deriving DecidableEq

/-- Default record used with List.getD. -/
def defaultReconnectAttempt : ReconnectAttempt := ⟨0, 0, 0, 0⟩

/-- Trace of BLEHomeController._persistent_reconnect when the first k
attempts all fail, starting from attempt counter value a (the loop
starts at 0 and increments first): per-attempt timeout is min of
base plus attempt times 5 and 60 (line 580), the connect call passes
retries 1 (line 588), and the inter-attempt wait is min of 2 to the
attempt and 60 (line 581). -/
def reconnectTrace (base : Nat) : Nat → Nat → List ReconnectAttempt
  | _, 0 => []
  | a, k + 1 =>
    ⟨a + 1, min (base + (a + 1) * 5) 60, 1, min (2 ^ (a + 1)) 60⟩ ::
      reconnectTrace base (a + 1) k

/-- Indexing the reconnect trace: the n-th recorded attempt (0-based)
starting from counter a is attempt number a+n+1 with the computed
timeout, retries 1 and computed wait. -/
theorem reconnectTrace_getD (base : Nat) :
    ∀ (k a n : Nat), n < k →
      (reconnectTrace base a k).getD n defaultReconnectAttempt =
        ⟨a + n + 1, min (base + (a + n + 1) * 5) 60, 1, min (2 ^ (a + n + 1)) 60⟩ := by
  intro k
  induction k with
  | zero => intro a n h; omega
  | succ k ih =>
    intro a n h
    cases n with
    | zero => simp [reconnectTrace]
    | succ n =>
      have hn : n < k := by omega
      have hrec := ih (a + 1) n hn
      have hA : a + 1 + n + 1 = a + (n + 1) + 1 := by omega
      rw [hA] at hrec
      simp only [reconnectTrace, List.getD_cons_succ]
      exact hrec

/-- C5: in the persistent reconnect loop every attempt n (1-based) uses
connect timeout min(base + n*5, 60), passes retries 1, and waits
min(2^n, 60) afterwards; concretely the waits for attempts 1..6 are
2, 4, 8, 16, 32, 60 seconds. -/
theorem c5_persistent_reconnect_schedule (base k n : Nat) (h : n < k) :
    (reconnectTrace base 0 k).getD n defaultReconnectAttempt =
      ⟨n + 1, min (base + (n + 1) * 5) 60, 1, min (2 ^ (n + 1)) 60⟩ ∧
    (reconnectTrace 15 0 6).map (fun r => r.wait) = [2, 4, 8, 16, 32, 60] := by
  constructor
  · have := reconnectTrace_getD base k 0 n h
    simpa using this
  · decide

/-- C5 witness: the schedule record of the first reconnect attempt with
the default base timeout of 15 seconds. -/
theorem c5_persistent_reconnect_schedule_witness :
    (reconnectTrace 15 0 6).getD 0 defaultReconnectAttempt =
      ⟨1, min (15 + 1 * 5) 60, 1, min (2 ^ 1) 60⟩ ∧
    (reconnectTrace 15 0 6).map (fun r => r.wait) = [2, 4, 8, 16, 32, 60] :=
  c5_persistent_reconnect_schedule 15 6 0 (by decide)

/-- C6: frames shorter than 7 bytes or with a first byte other than
0xA5 are dropped with no state change and no event; a frame whose
command field classifies it as a proxy advertisement but that is
shorter than 13 bytes is likewise dropped with no state change. -/
theorem c6_malformed_frames_dropped (st : ControllerState) (data : List Nat) :
    ((data.length < 7 ∨ data.getD 0 0 ≠ HEADER) →
      notificationHandler st data = (st, [], none)) ∧
    (frameCmd data = BTHOME_PROXY_CMD → data.length < 13 →
      notificationHandler st data = (st, [], none)) := by
  constructor
  · intro h
    simp only [notificationHandler]
    rw [if_pos h]
  · intro hcmd hlen
    by_cases h : data.length < 7 ∨ data.getD 0 0 ≠ HEADER
    · simp only [notificationHandler]
      rw [if_pos h]
    · simp only [notificationHandler, handleBthomeProxyPacket]
      rw [if_neg h, if_pos hcmd, if_pos hlen]

/-- C6 witness: a one-byte frame and a 7-byte proxy-classified frame
are both dropped on the fresh state. -/
theorem c6_malformed_frames_dropped_witness :
    notificationHandler freshState [0x00] = (freshState, [], none) ∧
    notificationHandler freshState [0xA5, 0, 0, 0x82, 0x03, 0, 0] =
      (freshState, [], none) :=
  ⟨(c6_malformed_frames_dropped freshState [0x00]).1 (Or.inl (by decide)),
   (c6_malformed_frames_dropped freshState [0xA5, 0, 0, 0x82, 0x03, 0, 0]).2
     (by decide) (by decide)⟩

/-- Session reaction shared by the heartbeat-failure handler
(lines 666-671), the send_command write-failure handler
(lines 818-822) and the unexpected-disconnect callback: mark
disconnected, stop the heartbeat, and create a persistent-reconnect
task only when none is live. -/
def markDisconnectedAndReconnect (st : ControllerState) : ControllerState :=
  { st with connected := false, heartbeatRunning := false,
            reconnectCount := if st.reconnectCount = 0 then 1 else st.reconnectCount }

/-- Result of BLEHomeController.send_command: the state after the call,
the boolean returned to the caller, and the frames handed to the
transport write (empty when no write was performed). -/
structure SendOutcome where
  state : ControllerState
  success : Bool
  written : List (List Nat)
deriving DecidableEq

/-- BLEHomeController.send_command. The transport write outcome is an
input (writeOk false models write_gatt_char raising): return failure
without writing when not connected; on a write failure catch the
exception, mark disconnected, stop the heartbeat, schedule a reconnect
if none is live, and return failure. The function is total and returns
a Bool, so no failure propagates as an exception. -/
def sendCommand (st : ControllerState) (command : List Nat) (writeOk : Bool) :
    SendOutcome :=
  if st.connected = false then ⟨st, false, []⟩
  else if writeOk then ⟨st, true, [command]⟩
  else ⟨markDisconnectedAndReconnect st, false, [command]⟩

/-- Brightness normalisation in send_control_command line 840:
brightness if truthy else 0 (the identity on Nat, spelled as in the
source). -/
def normalizedBrightness (brightness : Nat) : Nat :=
  if brightness = 0 then 0 else brightness

/-- The 7-byte control frame built in send_control_command lines
841-849: header, little-endian address, big-endian CONTROL_CMD, on
flag, normalised brightness. -/
def controlFrame (address : Nat) (isOn : Bool) (brightness : Nat) : List Nat :=
  [HEADER, address % 256, address / 256 % 256,
   CONTROL_CMD / 256 % 256, CONTROL_CMD % 256,
   if isOn then 1 else 0, normalizedBrightness brightness]

/-- Result of BLEHomeController.send_control_command: state, returned
boolean, frames written, events fired. -/
structure ControlOutcome where
  state : ControllerState
  success : Bool
  written : List (List Nat)
  events : List BusEvent
deriving DecidableEq

/-- BLEHomeController.send_control_command: encode the control frame,
send it, and on success for a known address optimistically store the
new state locally and fire subdevice-updated; no device echo is read. -/
def sendControlCommand (st : ControllerState) (address : Nat) (isOn : Bool)
    (brightness : Nat) (writeOk : Bool) : ControlOutcome :=
  let frame := controlFrame address isOn brightness
  let r := sendCommand st frame writeOk
  if r.success ∧ (alookup r.state.subdevices address).isSome then
    let ns : SubState := ⟨isOn, normalizedBrightness brightness⟩
    ⟨{ r.state with subdevices := setSubState r.state.subdevices address ns },
     r.success, r.written, [BusEvent.subdeviceUpdated address ns]⟩
  else ⟨r.state, r.success, r.written, []⟩

/-- The heartbeat loop's exception handler (lines 665-671): on a
heartbeat failure mark disconnected, stop the heartbeat task, and start
a persistent-reconnect task only if none is already running. -/
def onHeartbeatFailure (st : ControllerState) : ControllerState :=
  markDisconnectedAndReconnect st

/-- Looking up the updated address after setSubState returns the old
entry with its name kept and the state replaced. -/
theorem alookup_setSubState (subs : List (Nat × Subdevice)) (a : Nat) (s : SubState) :
    alookup (setSubState subs a s) a =
      (alookup subs a).map (fun sub => ⟨sub.name, s⟩) := by
  induction subs with
  | nil => rfl
  | cons p t ih =>
    obtain ⟨k, v⟩ := p
    by_cases hk : k = a
    · subst hk
      show alookup ((if k = k then (k, (⟨v.name, s⟩ : Subdevice)) else (k, v)) ::
        setSubState t k s) k = _
      rw [if_pos rfl]
      simp [alookup]
    · simp only [setSubState, List.map_cons]
      rw [if_neg hk]
      simp only [alookup, if_neg hk]
      exact ih

/-- setSubState never changes the key list of the registry. -/
theorem map_fst_setSubState (subs : List (Nat × Subdevice)) (a : Nat) (s : SubState) :
    (setSubState subs a s).map Prod.fst = subs.map Prod.fst := by
  induction subs with
  | nil => rfl
  | cons p t ih =>
    by_cases hk : p.1 = a <;>
      simp only [setSubState, List.map_cons, if_pos, if_neg, hk] at * <;>
      simp [ih, hk]

/-- A session state with one known subdevice at address 2, used by the
concrete witnesses. -/
def knownState : ControllerState :=
  { freshState with
      subdevices := [(2, ⟨"blehome.tled..light.0002", ⟨false, 0⟩⟩)] }

/-- C7: for a known subdevice address, a successful
send_control_command(addr, on=true, brightness=128) leaves the local
registry entry at state on=true, brightness=128 (no read-back from the
device is consulted: the transport outcome is the only input) and fires
subdevice-updated with that state. -/
theorem c7_control_roundtrip (st : ControllerState) (address : Nat) (sub : Subdevice)
    (hconn : st.connected = true)
    (hsub : alookup st.subdevices address = some sub) :
    (sendControlCommand st address true 128 true).success = true ∧
    alookup (sendControlCommand st address true 128 true).state.subdevices address =
      some ⟨sub.name, ⟨true, 128⟩⟩ ∧
    (sendControlCommand st address true 128 true).events =
      [BusEvent.subdeviceUpdated address ⟨true, 128⟩] := by
  have hnb : normalizedBrightness 128 = 128 := rfl
  simp only [sendControlCommand, sendCommand, hconn, hnb]
  simp [hsub, alookup_setSubState]

/-- C7 witness: the round trip on the concrete one-subdevice state. -/
theorem c7_control_roundtrip_witness :
    (sendControlCommand knownState 2 true 128 true).success = true ∧
    alookup (sendControlCommand knownState 2 true 128 true).state.subdevices 2 =
      some ⟨"blehome.tled..light.0002", ⟨true, 128⟩⟩ ∧
    (sendControlCommand knownState 2 true 128 true).events =
      [BusEvent.subdeviceUpdated 2 ⟨true, 128⟩] :=
  c7_control_roundtrip knownState 2 ⟨"blehome.tled..light.0002", ⟨false, 0⟩⟩
    rfl (by decide)

/-- C8: send_command returns failure without writing when the session
is not connected; a transport write failure is absorbed (the function
is total and returns a Bool), marks the session disconnected, stops the
heartbeat, and schedules a reconnect only if none is live. -/
theorem c8_send_failure_policy (st : ControllerState) (command : List Nat)
    (writeOk : Bool) :
    (st.connected = false → sendCommand st command writeOk = ⟨st, false, []⟩) ∧
    (st.connected = true → writeOk = false →
      (sendCommand st command writeOk).success = false ∧
      (sendCommand st command writeOk).state.connected = false ∧
      (sendCommand st command writeOk).state.heartbeatRunning = false ∧
      1 ≤ (sendCommand st command writeOk).state.reconnectCount ∧
      (sendCommand st command writeOk).state.reconnectCount =
        max 1 st.reconnectCount) := by
  constructor
  · intro h
    simp [sendCommand, h]
  · intro hconn hw
    subst hw
    simp only [sendCommand, hconn, markDisconnectedAndReconnect]
    by_cases hz : st.reconnectCount = 0 <;> simp [hz] <;> omega

/-- C8 witness: no write happens on a disconnected session, and a
write failure on the fresh connected session returns false, disconnects
and leaves exactly one reconnect task. -/
theorem c8_send_failure_policy_witness :
    sendCommand { freshState with connected := false } [0xA5] true =
      ⟨{ freshState with connected := false }, false, []⟩ ∧
    (sendCommand freshState [0xA5] false).success = false ∧
    (sendCommand freshState [0xA5] false).state.connected = false ∧
    (sendCommand freshState [0xA5] false).state.reconnectCount = 1 :=
  ⟨(c8_send_failure_policy { freshState with connected := false } [0xA5] true).1 rfl,
   ((c8_send_failure_policy freshState [0xA5] false).2 rfl rfl).1,
   ((c8_send_failure_policy freshState [0xA5] false).2 rfl rfl).2.1,
   ((c8_send_failure_policy freshState [0xA5] false).2 rfl rfl).2.2.2.2.trans (by decide)⟩

/-- C9: from a connected session with no live reconnect task, a
heartbeat failure leaves the session disconnected with exactly one
reconnect task; a second heartbeat failure before that task finishes
changes nothing (in particular it spawns no second task), and the
failure handler preserves the at-most-one-reconnect-task invariant. -/
theorem c9_single_reconnect_task (st : ControllerState)
    (hconn : st.connected = true) (hnone : st.reconnectCount = 0) :
    (onHeartbeatFailure st).connected = false ∧
    (onHeartbeatFailure st).heartbeatRunning = false ∧
    (onHeartbeatFailure st).reconnectCount = 1 ∧
    onHeartbeatFailure (onHeartbeatFailure st) = onHeartbeatFailure st ∧
    (∀ s : ControllerState, s.reconnectCount ≤ 1 →
      (onHeartbeatFailure s).reconnectCount ≤ 1) := by
  refine ⟨?_, ?_, ?_, ?_, ?_⟩
  · simp [onHeartbeatFailure, markDisconnectedAndReconnect]
  · simp [onHeartbeatFailure, markDisconnectedAndReconnect]
  · simp [onHeartbeatFailure, markDisconnectedAndReconnect, hnone]
  · simp [onHeartbeatFailure, markDisconnectedAndReconnect, hnone]
  · intro s hs
    by_cases hz : s.reconnectCount = 0 <;>
      simp [onHeartbeatFailure, markDisconnectedAndReconnect, hz] <;> omega

/-- C9 witness: the heartbeat-failure transition on the fresh connected
session. -/
theorem c9_single_reconnect_task_witness :
    (onHeartbeatFailure freshState).connected = false ∧
    (onHeartbeatFailure freshState).reconnectCount = 1 ∧
    onHeartbeatFailure (onHeartbeatFailure freshState) =
      onHeartbeatFailure freshState :=
  ⟨(c9_single_reconnect_task freshState rfl rfl).1,
   (c9_single_reconnect_task freshState rfl rfl).2.2.1,
   (c9_single_reconnect_task freshState rfl rfl).2.2.2.1⟩

/-- C10: send_control_command for an address absent from the registry
still encodes and hands the 7-byte control frame to the transport,
returns the transport result, and leaves the registry unchanged with no
subdevice-updated event, even on success. -/
theorem c10_unknown_address_control (st : ControllerState) (address : Nat)
    (isOn : Bool) (brightness : Nat) (writeOk : Bool)
    (hconn : st.connected = true)
    (hunknown : alookup st.subdevices address = none) :
    (sendControlCommand st address isOn brightness writeOk).written =
      [controlFrame address isOn brightness] ∧
    (controlFrame address isOn brightness).length = 7 ∧
    (sendControlCommand st address isOn brightness writeOk).success = writeOk ∧
    (sendControlCommand st address isOn brightness writeOk).state.subdevices =
      st.subdevices ∧
    (sendControlCommand st address isOn brightness writeOk).events = [] := by
  cases writeOk <;>
    simp [sendControlCommand, sendCommand, hconn, hunknown,
          markDisconnectedAndReconnect, controlFrame]

/-- C10 witness: a successful control command for unknown address 9 on
the fresh session writes the frame, succeeds, and changes nothing
locally. -/
theorem c10_unknown_address_control_witness :
    (sendControlCommand freshState 9 true 128 true).written =
      [controlFrame 9 true 128] ∧
    (sendControlCommand freshState 9 true 128 true).success = true ∧
    (sendControlCommand freshState 9 true 128 true).state.subdevices =
      freshState.subdevices ∧
    (sendControlCommand freshState 9 true 128 true).events = [] :=
  ⟨(c10_unknown_address_control freshState 9 true 128 true rfl rfl).1,
   (c10_unknown_address_control freshState 9 true 128 true rfl rfl).2.2.1,
   (c10_unknown_address_control freshState 9 true 128 true rfl rfl).2.2.2.1,
   (c10_unknown_address_control freshState 9 true 128 true rfl rfl).2.2.2.2⟩

/-- Lookup misses exactly when the key is absent from the key list. -/
theorem alookup_eq_none_iff {α β : Type} [DecidableEq α] (l : List (α × β)) (k : α) :
    alookup l k = none ↔ k ∉ l.map Prod.fst := by
  induction l with
  | nil => simp [alookup]
  | cons p t ih =>
    obtain ⟨a, b⟩ := p
    by_cases h : a = k
    · subst h
      simp [alookup]
    · simp [alookup, h, ih, Ne.symm h]

/-- The proxy bridge never touches the subdevice registry. -/
theorem handleBthomeProxyPacket_subdevices (st : ControllerState) (d : List Nat) :
    (handleBthomeProxyPacket st d).1.subdevices = st.subdevices := by
  by_cases h : d.length < 13
  · simp [handleBthomeProxyPacket, h]
  · simp only [handleBthomeProxyPacket, if_neg h]
    split <;> rfl

/-- Registration equation: when the address is absent the discovery
path appends exactly one entry and fires new-subdevice-found. -/
theorem addDiscoveredSubdevice_eq (st : ControllerState) (address : Nat)
    (isOn : Bool) (brightness : Nat)
    (hl : alookup st.subdevices address = none) :
    addDiscoveredSubdevice st address isOn brightness =
      ({ st with subdevices := st.subdevices ++
          [(address, ⟨subdeviceName st.deviceType st.macSuffix address,
                      ⟨isOn, brightness⟩⟩)] },
       [BusEvent.newSubdeviceFound st.macAddress address
          (subdeviceName st.deviceType st.macSuffix address)
          ⟨isOn, brightness⟩], none) := by
  unfold addDiscoveredSubdevice
  rw [hl]
  rfl

/-- Handler equation for a well-formed ordinary frame whose address is
not yet registered: the discovery path appends one fresh entry and
fires the new-subdevice-found event. -/
theorem notificationHandler_ordinary_new (st : ControllerState) (f : List Nat)
    (h7 : ¬(f.length < 7 ∨ f.getD 0 0 ≠ HEADER))
    (hp : frameCmd f ≠ BTHOME_PROXY_CMD)
    (hl : alookup st.subdevices (frameAddress f) = none) :
    notificationHandler st f =
      ({ st with subdevices := st.subdevices ++
          [(frameAddress f,
            ⟨subdeviceName st.deviceType st.macSuffix (frameAddress f),
             frameSubState f⟩)] },
       [BusEvent.newSubdeviceFound st.macAddress (frameAddress f)
          (subdeviceName st.deviceType st.macSuffix (frameAddress f))
          (frameSubState f)], none) := by
  simp only [notificationHandler, if_neg h7, if_neg hp]
  rw [hl]
  exact addDiscoveredSubdevice_eq st (frameAddress f) (frameSubState f).isOn
    (frameSubState f).brightness hl

/-- Handler equation for a well-formed ordinary frame whose address is
already registered: the state of its entry is replaced and the
subdevice-updated event fires. -/
theorem notificationHandler_ordinary_known (st : ControllerState) (f : List Nat)
    (sub : Subdevice)
    (h7 : ¬(f.length < 7 ∨ f.getD 0 0 ≠ HEADER))
    (hp : frameCmd f ≠ BTHOME_PROXY_CMD)
    (hl : alookup st.subdevices (frameAddress f) = some sub) :
    notificationHandler st f =
      ({ st with subdevices := setSubState st.subdevices (frameAddress f) (frameSubState f) },
       [BusEvent.subdeviceUpdated (frameAddress f) (frameSubState f)], none) := by
  simp only [notificationHandler, if_neg h7, if_neg hp]
  rw [hl]

/-- Processing any single frame preserves distinctness of the registry
key list. -/
theorem notificationHandler_preserves_nodup (st : ControllerState) (f : List Nat)
    (h : (st.subdevices.map Prod.fst).Nodup) :
    ((notificationHandler st f).1.subdevices.map Prod.fst).Nodup := by
  by_cases h7 : f.length < 7 ∨ f.getD 0 0 ≠ HEADER
  · simp only [notificationHandler, if_pos h7]
    exact h
  · by_cases hp : frameCmd f = BTHOME_PROXY_CMD
    · simp only [notificationHandler, if_neg h7, if_pos hp]
      simpa [handleBthomeProxyPacket_subdevices] using h
    · rcases hl : alookup st.subdevices (frameAddress f) with _ | sub
      · rw [notificationHandler_ordinary_new st f h7 hp hl]
        have hmem : frameAddress f ∉ st.subdevices.map Prod.fst :=
          (alookup_eq_none_iff st.subdevices _).mp hl
        simp only [List.map_append, List.map_cons, List.map_nil]
        rw [List.nodup_append]
        refine ⟨h, List.nodup_singleton _, ?_⟩
        intro x hx hy
        simp only [List.mem_singleton] at hy
        subst hy
        exact hmem hx
      · rw [notificationHandler_ordinary_known st f sub h7 hp hl]
        simpa [map_fst_setSubState] using h

/-- The registry after the Session processes a whole sequence of
inbound frames in order. -/
def processFrames (st : ControllerState) (frames : List (List Nat)) : ControllerState :=
  frames.foldl (fun s f => (notificationHandler s f).1) st

/-- Distinctness of registry keys is preserved over any frame
sequence. -/
theorem processFrames_preserves_nodup (frames : List (List Nat)) :
    ∀ st : ControllerState, (st.subdevices.map Prod.fst).Nodup →
      ((processFrames st frames).subdevices.map Prod.fst).Nodup := by
  induction frames with
  | nil => intro st h; exact h
  | cons f t ih =>
    intro st h
    exact ih _ (notificationHandler_preserves_nodup st f h)

/-- C2: a well-formed ordinary notification frame whose address is seen
for the first time appends exactly one registry entry holding the
decoded state and the name built from device type, mac suffix and the
04x address, and fires new-subdevice-found; a frame for an
already-known address keeps the key list and the entry's name unchanged
and only replaces its state, firing subdevice-updated; and over any
frame sequence the registry never acquires two entries for one address
(its key list stays duplicate-free). -/
theorem c2_registry_never_duplicates (st : ControllerState) (f : List Nat)
    (hlen : ¬ f.length < 7) (hhdr : f.getD 0 0 = HEADER)
    (hcmd : frameCmd f ≠ BTHOME_PROXY_CMD) :
    (alookup st.subdevices (frameAddress f) = none →
      notificationHandler st f =
        ({ st with subdevices := st.subdevices ++
            [(frameAddress f,
              ⟨subdeviceName st.deviceType st.macSuffix (frameAddress f),
               frameSubState f⟩)] },
         [BusEvent.newSubdeviceFound st.macAddress (frameAddress f)
            (subdeviceName st.deviceType st.macSuffix (frameAddress f))
            (frameSubState f)], none)) ∧
    (∀ sub : Subdevice,
      alookup st.subdevices (frameAddress f) = some sub →
        (notificationHandler st f).1.subdevices.map Prod.fst =
          st.subdevices.map Prod.fst ∧
        alookup (notificationHandler st f).1.subdevices (frameAddress f) =
          some ⟨sub.name, frameSubState f⟩ ∧
        (notificationHandler st f).2 =
          ([BusEvent.subdeviceUpdated (frameAddress f) (frameSubState f)], none)) ∧
    (∀ frames : List (List Nat), (st.subdevices.map Prod.fst).Nodup →
      ((processFrames st frames).subdevices.map Prod.fst).Nodup) := by
  have h7 : ¬(f.length < 7 ∨ f.getD 0 0 ≠ HEADER) := by
    rintro (h | h)
    · exact hlen h
    · exact h hhdr
  refine ⟨fun hl => notificationHandler_ordinary_new st f h7 hcmd hl,
          fun sub hl => ?_,
          fun frames h => processFrames_preserves_nodup frames st h⟩
  rw [notificationHandler_ordinary_known st f sub h7 hcmd hl]
  refine ⟨map_fst_setSubState _ _ _, ?_, rfl⟩
  rw [alookup_setSubState, hl]
  rfl

/-- C2 witness: the frame for address 2 on the one-subdevice state hits
the update path, keeping the keys and the name; the same frame on the
fresh state hits the registration path. -/
theorem c2_registry_never_duplicates_witness :
    notificationHandler freshState [0xA5, 2, 0, 1, 0x82, 1, 5] =
      ({ freshState with subdevices := [(2, ⟨"blehome.tled..light.0002", ⟨true, 5⟩⟩)] },
       [BusEvent.newSubdeviceFound "AA:BB:CC:DD:EE:FF" 2 "blehome.tled..light.0002"
          ⟨true, 5⟩], none) ∧
    alookup (notificationHandler knownState [0xA5, 2, 0, 1, 0x82, 1, 5]).1.subdevices 2 =
      some ⟨"blehome.tled..light.0002", ⟨true, 5⟩⟩ :=
  ⟨(c2_registry_never_duplicates freshState [0xA5, 2, 0, 1, 0x82, 1, 5]
      (by decide) (by decide) (by decide)).1 (by decide),
   ((c2_registry_never_duplicates knownState [0xA5, 2, 0, 1, 0x82, 1, 5]
      (by decide) (by decide) (by decide)).2.1
      ⟨"blehome.tled..light.0002", ⟨false, 0⟩⟩ (by decide)).2.1⟩

/-- Overwriting an existing key makes the lookup return the new value. -/
theorem alookup_aupdate_self {α β : Type} [DecidableEq α] (l : List (α × β)) (k : α)
    (v : β) (h : (alookup l k).isSome = true) :
    alookup (aupdate l k v) k = some v := by
  induction l with
  | nil => simp [alookup] at h
  | cons p t ih =>
    obtain ⟨a, b⟩ := p
    by_cases hk : a = k
    · subst hk
      show alookup ((if a = a then (a, v) else (a, b)) :: aupdate t a v) a = some v
      rw [if_pos rfl]
      simp [alookup]
    · show alookup ((if a = k then (k, v) else (a, b)) :: aupdate t k v) k = some v
      rw [if_neg hk]
      simp only [alookup, if_neg hk]
      simp only [alookup, if_neg hk] at h
      exact ih h

/-- Lookup walks past a prefix that misses the key. -/
theorem alookup_append_right {α β : Type} [DecidableEq α] (l l2 : List (α × β))
    (k : α) (h : alookup l k = none) :
    alookup (l ++ l2) k = alookup l2 k := by
  induction l with
  | nil => rfl
  | cons p t ih =>
    obtain ⟨a, b⟩ := p
    by_cases hk : a = k
    · simp [alookup, hk] at h
    · simp only [List.cons_append, alookup, if_neg hk] at *
      exact ih h

/-- After dict assignment d[k] = v the lookup of k returns v. -/
theorem alookup_aset_self {α β : Type} [DecidableEq α] (l : List (α × β)) (k : α)
    (v : β) : alookup (aset l k v) k = some v := by
  unfold aset
  by_cases h : (alookup l k).isSome = true
  · rw [if_pos h]
    exact alookup_aupdate_self l k v h
  · rw [if_neg h]
    have hn : alookup l k = none := by
      cases hx : alookup l k with
      | none => rfl
      | some w => rw [hx] at h; simp at h
    rw [alookup_append_right l _ k hn]
    simp [alookup]

/-- After a proxy frame is processed (forwarded or deduplicated), the
dedup map holds the hash of its payload under its originator MAC. -/
theorem handleBthomeProxyPacket_dedup (st : ControllerState) (d : List Nat)
    (h : ¬ d.length < 13) :
    alookup (handleBthomeProxyPacket st d).1.bthomeDedup (proxyMac d) =
      some (payloadHash (proxyPayload d)) := by
  simp only [handleBthomeProxyPacket, if_neg h]
  by_cases hd : alookup st.bthomeDedup (proxyMac d) = some (payloadHash (proxyPayload d))
  · rw [if_pos hd]
    exact hd
  · rw [if_neg hd]
    exact alookup_aset_self st.bthomeDedup (proxyMac d) (payloadHash (proxyPayload d))

/-- C3: for two consecutive proxy-advertisement frames from the same
6-byte originator identity, an identical payload means the second is
dropped silently (and when the first was not itself a duplicate of the
previously forwarded payload, exactly one advertisement is forwarded
for the pair); a payload differing in at least one byte means the
second frame is always forwarded too. -/
theorem c3_proxy_dedup (st : ControllerState) (f1 f2 : List Nat)
    (h1 : ¬ f1.length < 13) (h2 : ¬ f2.length < 13)
    (hmac : proxyMac f1 = proxyMac f2) :
    (proxyPayload f1 = proxyPayload f2 →
      (handleBthomeProxyPacket (handleBthomeProxyPacket st f1).1 f2).2 = none) ∧
    (alookup st.bthomeDedup (proxyMac f1) ≠ some (payloadHash (proxyPayload f1)) →
      (handleBthomeProxyPacket st f1).2.isSome = true) ∧
    (proxyPayload f1 ≠ proxyPayload f2 →
      (handleBthomeProxyPacket (handleBthomeProxyPacket st f1).1 f2).2.isSome = true) := by
  have hkey : alookup (handleBthomeProxyPacket st f1).1.bthomeDedup (proxyMac f2) =
      some (payloadHash (proxyPayload f1)) := by
    rw [← hmac]
    exact handleBthomeProxyPacket_dedup st f1 h1
  refine ⟨fun hpay => ?_, fun hfst => ?_, fun hpay => ?_⟩
  · generalize hg : (handleBthomeProxyPacket st f1).1 = st1 at hkey ⊢
    simp only [handleBthomeProxyPacket, if_neg h2]
    rw [if_pos (by rw [hkey, hpay])]
  · simp only [handleBthomeProxyPacket, if_neg h1]
    rw [if_neg hfst]
    rfl
  · generalize hg : (handleBthomeProxyPacket st f1).1 = st1 at hkey ⊢
    simp only [handleBthomeProxyPacket, if_neg h2]
    rw [if_neg (by rw [hkey]; intro hc; exact hpay (Option.some.inj hc))]
    rfl

/-- C3 witness: a concrete 15-byte proxy frame processed twice from the
fresh session forwards once and drops the repeat. -/
theorem c3_proxy_dedup_witness :
    (handleBthomeProxyPacket freshState
        [0xA5, 0, 0, 0x82, 0x03, 0xC0, 1, 2, 3, 4, 5, 6, 2, 9, 9]).2.isSome = true ∧
    (handleBthomeProxyPacket
        (handleBthomeProxyPacket freshState
          [0xA5, 0, 0, 0x82, 0x03, 0xC0, 1, 2, 3, 4, 5, 6, 2, 9, 9]).1
        [0xA5, 0, 0, 0x82, 0x03, 0xC0, 1, 2, 3, 4, 5, 6, 2, 9, 9]).2 = none :=
  ⟨(c3_proxy_dedup freshState
      [0xA5, 0, 0, 0x82, 0x03, 0xC0, 1, 2, 3, 4, 5, 6, 2, 9, 9]
      [0xA5, 0, 0, 0x82, 0x03, 0xC0, 1, 2, 3, 4, 5, 6, 2, 9, 9]
      (by decide) (by decide) rfl).2.1 (by decide),
   (c3_proxy_dedup freshState
      [0xA5, 0, 0, 0x82, 0x03, 0xC0, 1, 2, 3, 4, 5, 6, 2, 9, 9]
      [0xA5, 0, 0, 0x82, 0x03, 0xC0, 1, 2, 3, 4, 5, 6, 2, 9, 9]
      (by decide) (by decide) rfl).1 rfl⟩
